import Mathlib

/-!
Verification of the table catalog manager of a transactional document
database (`crates/database/src/bootstrap_model/table.rs`).

The catalog is embedded shallowly: the transaction is an explicit state
record (`Tx`), fallible operations return `Except Err` paired with the
updated transaction, machine integers (`u32` table numbers, `u64` counts)
are `Nat` with explicit bound checks at the points where the source uses
checked arithmetic, and the external collaborators (table mapping, count
oracle, schema enforcer) are modelled from the spec where their code is
not part of the excerpt.
-/

namespace TableModel

/-- Lifecycle state of a table row, from `TableState` in the source:
`Hidden`, `Active`, `Deleting`. -/
inductive TableState where
  | hidden
  | active
  | deleting
deriving DecidableEq

/-- One row of the `_tables` catalog: `TableMetadata { name, number, state }`. -/
structure TableMetadata where
  name : String
  number : Nat
  state : TableState
deriving DecidableEq

/-- One row of the `_index` metadata table, as far as the catalog touches it:
which table it belongs to, which system index it is, and whether it is
enabled. -/
structure IndexMetadata where
  indexId : Nat
  tableId : Nat
  indexName : String
  enabled : Bool
deriving DecidableEq

/-- Errors surfaced by the catalog. `badRequest` models
`ErrorMetadata::bad_request(label, msg)` (user-correctable, carries a stable
machine-readable label); `internal` models a plain `anyhow` error with no
metadata label. -/
inductive Err where
  | badRequest (label : String) (msg : String)
  | internal (msg : String)
deriving DecidableEq

/-- True exactly for the `badRequest` constructor. -/
def Err.isBadRequest : Err → Bool
  | .badRequest _ _ => true
  | .internal _ => false

/-- The transaction state visible to the catalog: the `_tables` rows keyed by
tablet id, the virtual-table catalog (name, number), the index metadata rows,
the count oracle snapshot and the per-transaction count deltas (both keyed by
tablet id), the recorded full-table read dependencies (tablet ids whose
`by_id` index was read over `Interval::all()`), the set of table names the
schema enforcer vetoes for deletion, and the fresh document-id counter. -/
structure Tx where
  tables : List (Nat × TableMetadata)
  virtualTables : List (String × Nat)
  indexes : List IndexMetadata
  countSnapshot : List (Nat × Nat)
  countDeltas : List (Nat × Int)
  reads : List Nat
  schemaBlocks : List String
  nextId : Nat
deriving DecidableEq

/-- `MAX_USER_TABLES`: each instance is limited to this many user tables. -/
def MAX_USER_TABLES : Nat := 10000

/-- `NUM_RESERVED_SYSTEM_TABLE_NUMBERS`: the system-reserved floor. -/
def NUM_RESERVED_SYSTEM_TABLE_NUMBERS : Nat := 10000

/-- `NUM_RESERVED_LEGACY_TABLE_NUMBERS`: the legacy-reserved floor. -/
def NUM_RESERVED_LEGACY_TABLE_NUMBERS : Nat := 512

/-- Largest value of a `u64` document count. -/
def U64_MAX : Nat := 2 ^ 64 - 1

/-- Largest value of a `u32` table number; `TableNumber.increment` fails past
it. -/
def U32_MAX : Nat := 2 ^ 32 - 1

/-- Modelled from the spec: table system-ness is a static predicate over the
name (reserved prefix), replacing `TableName::is_system` whose code is not in
the excerpt. -/
def is_system (t : String) : Bool :=
  match t.data with
  | [] => false
  | c :: _ => c = '_'

/-- Modelled from the spec: the protected bootstrap system tables
(`bootstrap_system_tables()` in `defaults`, not in the excerpt) are the
well-known metadata tables holding one document per table and one per
index. -/
def bootstrap_system_tables : List String := ["_tables", "_index"]

/-- Association-list lookup by key, modelling point reads of documents keyed
by id. -/
def assocLookup {α : Type} (l : List (Nat × α)) (k : Nat) : Option α :=
  match l with
  | [] => none
  | p :: t => if p.1 = k then some p.2 else assocLookup t k

/-- Association-list lookup with a default, for the count oracle and the
delta map (`unwrap_or` in the source). -/
def lookupD {α : Type} (l : List (Nat × α)) (k : Nat) (d : α) : α :=
  (assocLookup l k).getD d

/-- Modelled from the spec: the Table Mapping is a derived point-in-time view
over the Table Metadata rows resolving name, number and id; `Hidden` tables
are staged but not visible to ordinary queries and `Deleting` rows are no
longer resolved, so the mapping contains exactly the `Active` rows. -/
def Tx.table_mapping (tx : Tx) : List (Nat × TableMetadata) :=
  tx.tables.filter (fun p => p.2.state == TableState.active)

/-- Mapping lookup `id_and_number_if_exists`: tablet id and number of the
table currently holding a name. -/
def Tx.id_and_number_if_exists (tx : Tx) (t : String) : Option (Nat × Nat) :=
  (tx.table_mapping.find? (fun p => p.2.name == t)).map (fun p => (p.1, p.2.number))

/-- Mapping lookup `id_if_exists`: tablet id of the table currently holding a
name. -/
def Tx.id_if_exists (tx : Tx) (t : String) : Option Nat :=
  (tx.id_and_number_if_exists t).map (fun p => p.1)

/-- Mapping reverse lookup `name_by_number_if_exists`: name of the table
currently holding a number. -/
def Tx.name_by_number_if_exists (tx : Tx) (n : Nat) : Option String :=
  (tx.table_mapping.find? (fun p => p.2.number == n)).map (fun p => p.2.name)

/-- Mapping predicate `table_number_exists`: some physical table currently
holds the number. -/
def Tx.number_exists (tx : Tx) (n : Nat) : Bool :=
  tx.table_mapping.any (fun p => p.2.number == n)

/-- Virtual-table mapping predicate `table_number_exists`: some virtual table
holds the number. -/
def Tx.virtual_number_exists (tx : Tx) (n : Nat) : Bool :=
  tx.virtualTables.any (fun p => p.2 == n)

/-- `TableModel::table_exists`: pure lookup against the table mapping. -/
def table_exists (t : String) (tx : Tx) : Bool :=
  (tx.id_if_exists t).isSome

/-- `TableModel::count_user_tables`: count of mapping entries whose name is
not a system name. -/
def count_user_tables (tx : Tx) : Nat :=
  (tx.table_mapping.filter (fun p => !(is_system p.2.name))).length

/-- `TableModel::count`: 0 when the table is not in the mapping; otherwise
the oracle snapshot count adjusted by the transaction delta with checked
`u64` arithmetic; when the table exists, additionally record a read
dependency over the table's whole `by_id` index. -/
def count (table : String) (tx : Tx) : Except Err Nat × Tx :=
  let countRes : Except Err Nat :=
    match tx.id_if_exists table with
    | some table_id =>
      let snapshot_count := lookupD tx.countSnapshot table_id 0
      let transaction_delta := lookupD tx.countDeltas table_id 0
      if transaction_delta < 0 then
        if transaction_delta.natAbs ≤ snapshot_count then
          .ok (snapshot_count - transaction_delta.natAbs)
        else .error (.internal "Count underflow")
      else
        if snapshot_count + transaction_delta.toNat ≤ U64_MAX then
          .ok (snapshot_count + transaction_delta.toNat)
        else .error (.internal "Count overflow")
    | none => .ok 0
  match countRes with
  | .error e => (.error e, tx)
  | .ok c =>
    match tx.id_if_exists table with
    | some table_id => (.ok c, { tx with reads := tx.reads ++ [table_id] })
    | none => (.ok c, tx)

/-- `get_table_metadata`: point read of a table's own metadata row; internal
error when the row is missing. -/
def get_table_metadata (table_id : Nat) (tx : Tx) : Except Err TableMetadata :=
  match assocLookup tx.tables table_id with
  | some m => .ok m
  | none => .error (.internal "Could not find table metadata for table")

/-- Replacement of the metadata row at a tablet id
(`replace_system_document` on the `_tables` table). -/
def replaceRow (l : List (Nat × TableMetadata)) (k : Nat) (v : TableMetadata) :
    List (Nat × TableMetadata) :=
  l.map (fun p => if p.1 = k then (k, v) else p)

/-- `delete_table_by_id`: remove every index metadata row attached to the
table, then replace the table's own row with an identical row except
`state = Deleting`. -/
def delete_table_by_id (table_id : Nat) (tx : Tx) : Except Err Unit × Tx :=
  let tx1 : Tx := { tx with indexes := tx.indexes.filter (fun i => i.tableId ≠ table_id) }
  match get_table_metadata table_id tx1 with
  | .error e => (.error e, tx1)
  | .ok m =>
    let updated : TableMetadata := { name := m.name, number := m.number, state := .deleting }
    (.ok (), { tx1 with tables := replaceRow tx1.tables table_id updated })

/-- Modelled from the spec: the Schema Enforcer
(`SchemaModel::enforce_table_deletion`, not in the excerpt) vetoes table
deletion when the table is referenced by an active or validated schema;
`schemaBlocks` lists the vetoed names. -/
def enforce_table_deletion (table_name : String) (tx : Tx) : Except Err Unit :=
  if tx.schemaBlocks.contains table_name then
    .error (.internal ("Table " ++ table_name ++ " that appears in schema must exist"))
  else .ok ()

/-- `TableModel::delete_table`: no-op on a missing table; otherwise consult
the schema enforcer and delegate to the delete-by-id path. -/
def delete_table (table_name : String) (tx : Tx) : Except Err Unit × Tx :=
  if !(table_exists table_name tx) then (.ok (), tx)
  else
    match enforce_table_deletion table_name tx with
    | .error e => (.error e, tx)
    | .ok _ =>
      match tx.id_if_exists table_name with
      | some table_id => delete_table_by_id table_id tx
      | none => (.error (.internal "table unexpectedly missing from mapping"), tx)

/-- `next_table_number`: ascending scan of the regular and virtual catalogs,
maximum bounded below by the legacy floor (system allocation) or the system
floor (user allocation), incremented with overflow checking on `u32`. -/
def next_table_number (is_system : Bool) (tx : Tx) : Except Err Nat :=
  let floor := if is_system then NUM_RESERVED_LEGACY_TABLE_NUMBERS
    else NUM_RESERVED_SYSTEM_TABLE_NUMBERS
  let m1 := tx.tables.foldl (fun acc p => max acc p.2.number) floor
  let m2 := tx.virtualTables.foldl (fun acc p => max acc p.2) m1
  if m2 + 1 ≤ U32_MAX then .ok (m2 + 1) else .error (.internal "table number overflow")

/-- `next_user_table_number`. -/
def next_user_table_number (tx : Tx) : Except Err Nat :=
  next_table_number false tx

/-- `next_system_table_number`. -/
def next_system_table_number (tx : Tx) : Except Err Nat :=
  next_table_number true tx

/-- `check_can_overwrite`: conflict check for a proposed (name, number) pair
against the virtual catalog, the bootstrap system tables, and the physical
mapping, with exceptions for same-name overwrite and same-import-batch
overwrite. -/
def check_can_overwrite (table : String) (table_number : Option Nat)
    (tables_in_import : List String) (tx : Tx) : Except Err Unit :=
  match table_number with
  | none => .ok ()
  | some table_number =>
    if tx.virtual_number_exists table_number then
      .error (.badRequest "TableConflict"
        ("New table " ++ table ++ " has IDs that conflict with existing system table"))
    else
      match tx.name_by_number_if_exists table_number with
      | some existing_table_by_number =>
        if !(bootstrap_system_tables.all (fun t => t ≠ existing_table_by_number)) then
          .error (.internal ("Conflict with bootstrap system table " ++ existing_table_by_number))
        else if existing_table_by_number == table then .ok ()
        else if tables_in_import.contains existing_table_by_number then .ok ()
        else if is_system existing_table_by_number then
          .error (.badRequest "TableConflict"
            ("New table " ++ table ++ " has IDs that conflict with existing internal table. " ++
              "Consider importing this table without _id fields or import into a new deployment."))
        else
          .error (.badRequest "TableConflict"
            ("New table " ++ table ++ " has IDs that conflict with existing table " ++
              existing_table_by_number))
      | none => .ok ()

/-- `TableModel::activate_table`: read the target row; no-op if `Active`,
fail if `Deleting`; otherwise run the conflict check, cascade-delete any
different table currently holding the name (counting its documents), and
replace the target row with an `Active` row built from the caller-supplied
name and number. -/
def activate_table (tablet_id : Nat) (table_name : String) (table_number : Nat)
    (tables_in_import : List String) (tx : Tx) : Except Err Nat × Tx :=
  match get_table_metadata tablet_id tx with
  | .error e => (.error e, tx)
  | .ok table_metadata =>
    match table_metadata.state with
    | .active => (.ok 0, tx)
    | .deleting =>
      (.error (.internal ("cannot activate " ++ table_name ++ " which is deleting")), tx)
    | .hidden =>
      match check_can_overwrite table_name (some table_number) tables_in_import tx with
      | .error e => (.error e, tx)
      | .ok _ =>
        let afterCascade : Except Err Nat × Tx :=
          if table_exists table_name tx then
            match tx.id_if_exists table_name with
            | some existing_table_by_name =>
              match count table_name tx with
              | (.error e, tx1) => (.error e, tx1)
              | (.ok c, tx1) =>
                match delete_table_by_id existing_table_by_name tx1 with
                | (.error e, tx2) => (.error e, tx2)
                | (.ok _, tx2) => (.ok c, tx2)
            | none => (.error (.internal "table unexpectedly missing from mapping"), tx)
          else (.ok 0, tx)
        match afterCascade with
        | (.error e, tx') => (.error e, tx')
        | (.ok documents_deleted, tx') =>
          let table_metadata : TableMetadata :=
            { name := table_name, number := table_number, state := .active }
          (.ok documents_deleted,
            { tx' with tables := replaceRow tx'.tables tablet_id table_metadata })

/-- `_insert_table_metadata`: idempotent return for an existing `Active`
table (the supplied number, if any, must match); otherwise enforce the
user-table cap, resolve the number (validated unused unless the new state is
`Hidden`, else allocated), insert the table row and its two default enabled
indexes (`by_id`, `by_creation_time`). The too-many-tables error is modelled
from the spec: a user-correctable conflict with a stable label, its code
(`index_validation_error::too_many_tables`) being outside the excerpt. -/
def _insert_table_metadata (table : String) (table_number : Option Nat)
    (state : TableState) (tx : Tx) : Except Err (Nat × Nat) × Tx :=
  if state == TableState.active && table_exists table tx then
    match tx.id_and_number_if_exists table with
    | some idnum =>
      if table_number.isNone || table_number == some idnum.2 then (.ok idnum, tx)
      else (.error (.internal
        "table_number.is_none() || table_number == Some(table_id.table_number)"), tx)
    | none => (.error (.internal "table unexpectedly missing from mapping"), tx)
  else
    if count_user_tables tx < MAX_USER_TABLES then
      let resolved : Except Err Nat :=
        match table_number with
        | some n =>
          if state == TableState.hidden || !(tx.number_exists n) then .ok n
          else .error (.badRequest "InvalidId"
            ("conflict trying to create " ++ table ++ " with number " ++ toString n))
        | none => next_user_table_number tx
      match resolved with
      | .error e => (.error e, tx)
      | .ok n =>
        let table_doc_id := tx.nextId
        (.ok (table_doc_id, n),
          { tx with
            tables := tx.tables ++ [(table_doc_id, ⟨table, n, state⟩)],
            indexes := tx.indexes ++
              [⟨tx.nextId + 1, table_doc_id, "by_id", true⟩,
               ⟨tx.nextId + 2, table_doc_id, "by_creation_time", true⟩],
            nextId := tx.nextId + 3 })
    else
      (.error (.badRequest "TooManyTables"
        ("Too many tables (maximum " ++ toString MAX_USER_TABLES ++ ")")), tx)

/-- `TableModel::insert_table_metadata`: implicit creation used by ordinary
writes; no-op for system names, else private create with `state = Active`
and no explicit number. -/
def insert_table_metadata (table : String) (tx : Tx) : Except Err Unit × Tx :=
  if is_system table then (.ok (), tx)
  else
    match _insert_table_metadata table none TableState.active tx with
    | (.error e, tx') => (.error e, tx')
    | (.ok _, tx') => (.ok (), tx')

/-- `TableModel::insert_table_for_import`: reject bootstrap system table
names, default the number to the existing table's number for the same name,
run the conflict check, then private create with `state = Hidden`. -/
def insert_table_for_import (table : String) (table_number : Option Nat)
    (tables_in_import : List String) (tx : Tx) : Except Err (Nat × Nat) × Tx :=
  if !(bootstrap_system_tables.all (fun t => t ≠ table)) then
    (.error (.internal ("Conflict with bootstrap system table " ++ table)), tx)
  else
    let existing_table_by_name := (tx.id_and_number_if_exists table).map (fun p => p.2)
    let table_number2 :=
      match table_number with
      | some n => some n
      | none => existing_table_by_name
    match check_can_overwrite table table_number2 tables_in_import tx with
    | .error e => (.error e, tx)
    | .ok _ => _insert_table_metadata table table_number2 TableState.hidden tx

/-! ### Helper lemmas about the embedding -/

theorem assocLookup_replaceRow_self (l : List (Nat × TableMetadata)) (k : Nat)
    (v m : TableMetadata) (h : assocLookup l k = some m) :
    assocLookup (replaceRow l k v) k = some v := by
  induction l with
  | nil => simp [assocLookup] at h
  | cons p t ih =>
    by_cases hk : p.1 = k
    · simp [replaceRow, assocLookup, hk]
    · simp only [assocLookup, if_neg hk] at h
      simp only [replaceRow, List.map_cons, if_neg hk, assocLookup, if_neg hk]
      exact ih h

theorem assocLookup_replaceRow_ne (l : List (Nat × TableMetadata)) (k kp : Nat)
    (v : TableMetadata) (h : kp ≠ k) :
    assocLookup (replaceRow l k v) kp = assocLookup l kp := by
  induction l with
  | nil => simp [replaceRow]
  | cons p t ih =>
    by_cases hk : p.1 = k
    · have hkp : ¬((k : Nat) = kp) := fun hh => h hh.symm
      have hkp2 : ¬(p.1 = kp) := by rw [hk]; exact hkp
      simp only [replaceRow, List.map_cons, if_pos hk, assocLookup, if_neg hkp, if_neg hkp2]
      exact ih
    · simp only [replaceRow, List.map_cons, if_neg hk, assocLookup]
      by_cases hp : p.1 = kp
      · simp [hp]
      · simp only [if_neg hp]
        exact ih

theorem assocLookup_replaceRow_isSome (l : List (Nat × TableMetadata)) (k kp : Nat)
    (v : TableMetadata) (h : (assocLookup l kp).isSome) :
    (assocLookup (replaceRow l k v) kp).isSome := by
  by_cases hk : kp = k
  · subst hk
    obtain ⟨m, hm⟩ := Option.isSome_iff_exists.mp h
    rw [assocLookup_replaceRow_self l kp v m hm]
    rfl
  · rw [assocLookup_replaceRow_ne l k kp v hk]
    exact h

theorem foldl_max_init (l : List Nat) : ∀ a b : Nat,
    l.foldl max (max a b) = max (l.foldl max a) b := by
  induction l with
  | nil => intro a b; rfl
  | cons x xs ih =>
    intro a b
    simp only [List.foldl_cons]
    rw [show max (max a b) x = max (max a x) b by omega]
    exact ih (max a x) b

theorem foldl_max_eq_foldr_max (l : List Nat) : ∀ a : Nat,
    l.foldl max a = l.foldr max a := by
  induction l with
  | nil => intro a; rfl
  | cons x xs ih =>
    intro a
    simp only [List.foldl_cons, List.foldr_cons]
    rw [foldl_max_init xs a x, ih a, Nat.max_comm]

theorem assocLookup_isSome_of_mem {α : Type} (l : List (Nat × α)) (p : Nat × α)
    (hmem : p ∈ l) : (assocLookup l p.1).isSome := by
  induction l with
  | nil => simp at hmem
  | cons q t ih =>
    simp only [List.mem_cons] at hmem
    by_cases hq : q.1 = p.1
    · simp [assocLookup, hq]
    · rcases hmem with h1 | h2
      · rw [h1] at hq; exact absurd rfl hq
      · simp only [assocLookup, if_neg hq]
        exact ih h2

theorem lookup_of_id_if_exists (tx : Tx) (t : String) (eid : Nat)
    (h : tx.id_if_exists t = some eid) : (assocLookup tx.tables eid).isSome := by
  cases hf : tx.table_mapping.find? (fun p => p.2.name == t) with
  | none => simp [Tx.id_if_exists, Tx.id_and_number_if_exists, hf] at h
  | some p =>
    have hp : p ∈ tx.table_mapping := List.mem_of_find?_eq_some hf
    have hp2 : p ∈ tx.tables := List.mem_of_mem_filter hp
    have heid : p.1 = eid := by
      simp [Tx.id_if_exists, Tx.id_and_number_if_exists, hf] at h
      exact h
    rw [← heid]
    exact assocLookup_isSome_of_mem tx.tables p hp2

theorem count_snd_shape (t : String) (tx : Tx) :
    ∃ r, (count t tx).2 = { tx with reads := r } := by
  simp only [count]
  cases h : tx.id_if_exists t with
  | none => exact ⟨tx.reads, rfl⟩
  | some tid =>
    dsimp only
    split_ifs <;> exact ⟨_, rfl⟩

theorem delete_table_by_id_tables (table_id : Nat) (tx : Tx) (u : Unit) (tx2 : Tx)
    (h : delete_table_by_id table_id tx = (.ok u, tx2)) :
    ∃ v, tx2.tables = replaceRow tx.tables table_id v := by
  simp only [delete_table_by_id, get_table_metadata] at h
  cases hg : assocLookup tx.tables table_id with
  | none => rw [hg] at h; simp at h
  | some m =>
    rw [hg] at h
    simp only [Prod.mk.injEq] at h
    exact ⟨⟨m.name, m.number, TableState.deleting⟩, by rw [← h.2]⟩

/-! ### Claim theorems -/

/-- C10: in `activate_table` the metadata read, the state dispatch and the
conflict check all precede any mutation, so a call that fails because the
target row is `Deleting`, or because `check_can_overwrite` rejects the
(name, number) pair on a `Hidden` row, returns the transaction completely
unchanged: no index metadata row removed, no table row replaced, the target
row still in its prior state. -/
theorem activate_table_failure_frame (tx : Tx) (tablet_id : Nat) (name : String)
    (num : Nat) (imp : List String) (m : TableMetadata)
    (hm : assocLookup tx.tables tablet_id = some m) :
    (m.state = TableState.deleting →
      activate_table tablet_id name num imp tx =
        (.error (.internal ("cannot activate " ++ name ++ " which is deleting")), tx)) ∧
    (∀ e, m.state = TableState.hidden →
      check_can_overwrite name (some num) imp tx = .error e →
      activate_table tablet_id name num imp tx = (.error e, tx)) := by
  constructor
  · intro hs
    simp [activate_table, get_table_metadata, hm, hs]
  · intro e hs hc
    simp [activate_table, get_table_metadata, hm, hs, hc]

def txW10 : Tx := ⟨[(1, ⟨"a", 10001, TableState.deleting⟩)], [], [], [], [], [], [], 2⟩

theorem activate_table_failure_frame_witness :
    activate_table 1 "a" 10001 [] txW10 =
      (.error (.internal ("cannot activate " ++ "a" ++ " which is deleting")), txW10) :=
  (activate_table_failure_frame txW10 1 "a" 10001 []
    ⟨"a", 10001, TableState.deleting⟩ rfl).1 rfl

def txCex1 : Tx := ⟨[(1, ⟨"a", 10001, TableState.hidden⟩)], [], [], [], [], [], [], 2⟩

/-- C1 counterexample: activating the `Hidden` row whose stored fields are
("a", 10001) with caller-supplied ("b", 10002) passes the conflict check,
succeeds despite the number mismatch with the row, and the final replacement
carries the caller-supplied name and number, not the row's stored ones. -/
theorem activate_table_caller_fields_cex :
    assocLookup txCex1.tables 1 = some ⟨"a", 10001, TableState.hidden⟩ ∧
    activate_table 1 "b" 10002 [] txCex1 =
      (.ok 0, { txCex1 with tables := [(1, ⟨"b", 10002, TableState.active⟩)] }) :=
  ⟨rfl, rfl⟩

/-- C1 (amended): when `activate_table` is called on a `Hidden` target row
and succeeds, the final replacement of the target row is an `Active` row
built from the caller-supplied name and number; the row's previously stored
name and number are discarded, and no check requires the supplied number to
match the row's stored number. -/
theorem activate_table_sets_caller_fields (tx : Tx) (tablet_id : Nat)
    (name : String) (num : Nat) (imp : List String) (m : TableMetadata)
    (d : Nat) (tx' : Tx)
    (hm : assocLookup tx.tables tablet_id = some m)
    (hs : m.state = TableState.hidden)
    (hr : activate_table tablet_id name num imp tx = (.ok d, tx')) :
    assocLookup tx'.tables tablet_id = some ⟨name, num, TableState.active⟩ := by
  simp only [activate_table, get_table_metadata, hm, hs] at hr
  cases hc : check_can_overwrite name (some num) imp tx with
  | error e => rw [hc] at hr; simp at hr
  | ok u =>
    rw [hc] at hr
    by_cases ht : table_exists name tx
    · simp only [ht, if_true] at hr
      have htsome : (tx.id_if_exists name).isSome := ht
      obtain ⟨eid, he⟩ := Option.isSome_iff_exists.mp htsome
      rw [he] at hr
      dsimp only at hr
      cases hcnt : count name tx with
      | mk cres tx1 =>
        cases cres with
        | error e => rw [hcnt] at hr; simp at hr
        | ok c =>
          rw [hcnt] at hr
          dsimp only at hr
          cases hdel : delete_table_by_id eid tx1 with
          | mk dres tx2 =>
            cases dres with
            | error e => rw [hdel] at hr; simp at hr
            | ok u2 =>
              rw [hdel] at hr
              simp only [Prod.mk.injEq] at hr
              obtain ⟨r, hshape⟩ := count_snd_shape name tx
              rw [hcnt] at hshape
              dsimp only at hshape
              obtain ⟨drow, hd2⟩ := delete_table_by_id_tables eid tx1 u2 tx2 hdel
              have hsome2 : (assocLookup tx2.tables tablet_id).isSome := by
                rw [hd2, hshape]
                exact assocLookup_replaceRow_isSome tx.tables eid tablet_id drow
                  (by rw [hm]; rfl)
              obtain ⟨w, hw⟩ := Option.isSome_iff_exists.mp hsome2
              rw [← hr.2]
              exact assocLookup_replaceRow_self tx2.tables tablet_id _ w hw
    · rw [if_neg ht] at hr
      dsimp only at hr
      simp only [Prod.mk.injEq] at hr
      rw [← hr.2]
      exact assocLookup_replaceRow_self tx.tables tablet_id _ m hm

theorem activate_table_sets_caller_fields_witness :
    assocLookup
      ({ txCex1 with tables := [(1, ⟨"b", 10002, TableState.active⟩)] } : Tx).tables 1 =
      some ⟨"b", 10002, TableState.active⟩ :=
  activate_table_sets_caller_fields txCex1 1 "b" 10002 []
    ⟨"a", 10001, TableState.hidden⟩ 0
    { txCex1 with tables := [(1, ⟨"b", 10002, TableState.active⟩)] } rfl rfl rfl

theorem count_fst (t : String) (tx : Tx) :
    (count t tx).1 =
      match tx.id_if_exists t with
      | some table_id =>
        let s := lookupD tx.countSnapshot table_id 0
        let d := lookupD tx.countDeltas table_id 0
        if d < 0 then
          if d.natAbs ≤ s then .ok (s - d.natAbs)
          else .error (.internal "Count underflow")
        else
          if s + d.toNat ≤ U64_MAX then .ok (s + d.toNat)
          else .error (.internal "Count overflow")
      | none => .ok 0 := by
  simp only [count]
  cases h : tx.id_if_exists t
  case none => rfl
  case some tid =>
    dsimp only
    split_ifs <;> rfl

/-- C2: `count` returns 0 when the table is not in the table mapping; when it
is, it returns the snapshot count adjusted by the transaction's accumulated
signed delta, using checked arithmetic that fails with the
internal-consistency error "Count underflow" when the subtraction would go
below 0 and "Count overflow" when the addition would overflow `u64`. -/
theorem count_value_spec (tx : Tx) (t : String) :
    (tx.id_if_exists t = none → (count t tx).1 = .ok 0) ∧
    (∀ tid s d, tx.id_if_exists t = some tid →
      lookupD tx.countSnapshot tid 0 = s → lookupD tx.countDeltas tid 0 = d →
      ((d < 0 → d.natAbs ≤ s → (count t tx).1 = .ok (s - d.natAbs)) ∧
       (d < 0 → s < d.natAbs → (count t tx).1 = .error (.internal "Count underflow")) ∧
       (0 ≤ d → s + d.toNat ≤ U64_MAX → (count t tx).1 = .ok (s + d.toNat)) ∧
       (0 ≤ d → U64_MAX < s + d.toNat →
         (count t tx).1 = .error (.internal "Count overflow")))) := by
  constructor
  · intro h
    rw [count_fst, h]
  · intro tid s d h hs hd
    rw [count_fst, h]
    dsimp only
    rw [hs, hd]
    refine ⟨fun h1 h2 => ?_, fun h1 h2 => ?_, fun h1 h2 => ?_, fun h1 h2 => ?_⟩
    · rw [if_pos h1, if_pos h2]
    · rw [if_pos h1, if_neg (by omega)]
    · rw [if_neg (by omega), if_pos h2]
    · rw [if_neg (by omega), if_neg (by omega)]

def txW2 : Tx := ⟨[(1, ⟨"a", 10001, TableState.active⟩)], [], [], [(1, 7)], [(1, -3)], [], [], 2⟩

theorem count_value_spec_witness :
    (count "a" txW2).1 = .ok (7 - (-3 : Int).natAbs) :=
  (((count_value_spec txW2 "a").2 1 7 (-3) rfl rfl rfl).1 (by decide) (by decide))

def txCex7 : Tx := ⟨[(1, ⟨"a", 10001, TableState.active⟩)], [], [], [], [(1, -1)], [], [], 2⟩

/-- C7 counterexample: the table "a" exists in the transactional view, yet
this `count` call fails its underflow check and returns with the transaction
— read set included — unchanged, so no read dependency was registered even
though the table exists. -/
theorem count_read_dep_cex :
    table_exists "a" txCex7 = true ∧
    count "a" txCex7 = (.error (.internal "Count underflow"), txCex7) :=
  ⟨rfl, rfl⟩

/-- C7 (amended): `count` registers a read dependency covering the table's
entire `by_id` index range iff the table exists in the current transactional
view and the count computation succeeds; when the table does not exist, or
the checked arithmetic fails, `count` has no side effect on the
transaction's read set. -/
theorem count_read_dep (tx : Tx) (t : String) :
    (table_exists t tx = false → count t tx = (.ok 0, tx)) ∧
    (∀ tid c, tx.id_if_exists t = some tid → (count t tx).1 = .ok c →
      (count t tx).2 = { tx with reads := tx.reads ++ [tid] }) ∧
    (∀ e, (count t tx).1 = .error e → (count t tx).2 = tx) := by
  refine ⟨?_, ?_, ?_⟩
  · intro h
    have h2 : tx.id_if_exists t = none := by
      cases hx : tx.id_if_exists t with
      | none => rfl
      | some v => rw [table_exists, hx] at h; simp at h
    simp [count, h2]
  · intro tid c h hc
    simp only [count, h] at hc ⊢
    split_ifs at hc ⊢ <;> rfl
  · intro e he
    rw [count_fst] at he
    simp only [count]
    cases h : tx.id_if_exists t with
    | none => rw [h] at he
    | some tid =>
      rw [h] at he
      dsimp only at he ⊢
      split_ifs at he ⊢ <;> rfl

theorem count_read_dep_witness :
    (count "a" txW2).2 = { txW2 with reads := txW2.reads ++ [1] } :=
  (count_read_dep txW2 "a").2.1 1 4 rfl rfl

/-- C4: `check_can_overwrite` returns ok when no number is supplied; fails
when the number is used by a virtual table; fails when the physical table
holding the number is a bootstrap system table; returns ok when that table
has the proposed name, or a name contained in the import batch; and
otherwise fails with a conflict error naming the conflicting table, with a
distinct message when the conflicting table is a (non-bootstrap) system
table. -/
theorem check_can_overwrite_spec (tx : Tx) (table : String) (n : Nat)
    (imp : List String) :
    (check_can_overwrite table none imp tx = .ok ()) ∧
    (tx.virtual_number_exists n = true →
      check_can_overwrite table (some n) imp tx = .error (.badRequest "TableConflict"
        ("New table " ++ table ++ " has IDs that conflict with existing system table"))) ∧
    (tx.virtual_number_exists n = false → tx.name_by_number_if_exists n = none →
      check_can_overwrite table (some n) imp tx = .ok ()) ∧
    (∀ other, tx.virtual_number_exists n = false →
      tx.name_by_number_if_exists n = some other →
      ((other ∈ bootstrap_system_tables →
         check_can_overwrite table (some n) imp tx =
           .error (.internal ("Conflict with bootstrap system table " ++ other))) ∧
       (other ∉ bootstrap_system_tables → other = table →
         check_can_overwrite table (some n) imp tx = .ok ()) ∧
       (other ∉ bootstrap_system_tables → other ≠ table → other ∈ imp →
         check_can_overwrite table (some n) imp tx = .ok ()) ∧
       (other ∉ bootstrap_system_tables → other ≠ table → other ∉ imp →
         is_system other = true →
         check_can_overwrite table (some n) imp tx = .error (.badRequest "TableConflict"
           ("New table " ++ table ++ " has IDs that conflict with existing internal table. " ++
             "Consider importing this table without _id fields or import into a new deployment."))) ∧
       (other ∉ bootstrap_system_tables → other ≠ table → other ∉ imp →
         is_system other = false →
         check_can_overwrite table (some n) imp tx = .error (.badRequest "TableConflict"
           ("New table " ++ table ++ " has IDs that conflict with existing table " ++
             other))))) := by
  refine ⟨rfl, ?_, ?_, ?_⟩
  · intro hv
    simp [check_can_overwrite, hv]
  · intro hv hn
    simp [check_can_overwrite, hv, hn]
  · intro other hv hn
    refine ⟨?_, ?_, ?_, ?_, ?_⟩
    · intro hb
      simp [check_can_overwrite, hv, hn, hb]
    · intro hb heq
      subst heq
      simp [check_can_overwrite, hv, hn, hb]
    · intro hb hne hmem
      simp [check_can_overwrite, hv, hn, hb, hne, hmem]
    · intro hb hne hmem hsys
      simp [check_can_overwrite, hv, hn, hb, hne, hmem, hsys]
    · intro hb hne hmem hsys
      simp [check_can_overwrite, hv, hn, hb, hne, hmem, hsys]

def txW4 : Tx := ⟨[(1, ⟨"a", 7, TableState.active⟩)], [], [], [], [], [], [], 2⟩

theorem check_can_overwrite_spec_witness :
    check_can_overwrite "t" (some 7) [] txW4 = .error (.badRequest "TableConflict"
      ("New table " ++ "t" ++ " has IDs that conflict with existing table " ++ "a")) :=
  (((check_can_overwrite_spec txW4 "t" 7 []).2.2.2 "a" rfl rfl).2.2.2.2
    (by decide) (by decide) (by decide) (by decide))

def txCex8 : Tx := ⟨[(1, ⟨"_tables", 1, TableState.active⟩)], [], [], [], [], [], [], 2⟩

/-- C8 counterexample: a table-number collision with a bootstrap system
table is one of the catalog's Conflict-kind failures, yet it is reported as
a plain internal `anyhow` error with no machine-readable bad-request
label. -/
theorem conflict_label_cex :
    check_can_overwrite "t" (some 1) [] txCex8 =
      .error (.internal ("Conflict with bootstrap system table " ++ "_tables")) ∧
    (Err.internal ("Conflict with bootstrap system table " ++ "_tables")).isBadRequest
      = false :=
  ⟨rfl, rfl⟩

/-- The machine-readable label of a bad-request result, if any. -/
def resultLabel {α : Type} : Except Err α → Option String
  | .error (.badRequest l _) => some l
  | _ => none

/-- C8 (amended): conflicts with a virtual table or with an unrelated table,
and the explicit-number creation conflict, are reported as bad requests with
the stable labels "TableConflict" and "InvalidId", and the user-table cap
conflict with "TooManyTables"; but the collision with a bootstrap system
table and the name/number mismatch on idempotent re-creation are plain
internal errors carrying no machine-readable label. -/
theorem conflict_error_labels (tx : Tx) (table other : String) (n tid num : Nat)
    (imp : List String) :
    (tx.virtual_number_exists n = true →
      resultLabel (check_can_overwrite table (some n) imp tx) = some "TableConflict") ∧
    (tx.virtual_number_exists n = false → tx.name_by_number_if_exists n = some other →
      other ∉ bootstrap_system_tables → other ≠ table → other ∉ imp →
      resultLabel (check_can_overwrite table (some n) imp tx) = some "TableConflict") ∧
    (table_exists table tx = false → count_user_tables tx < MAX_USER_TABLES →
      tx.number_exists n = true →
      resultLabel ((_insert_table_metadata table (some n) TableState.active tx).1) =
        some "InvalidId") ∧
    (count_user_tables tx ≥ MAX_USER_TABLES → table_exists table tx = false →
      resultLabel ((_insert_table_metadata table (some n) TableState.active tx).1) =
        some "TooManyTables") ∧
    (tx.virtual_number_exists n = false → tx.name_by_number_if_exists n = some other →
      other ∈ bootstrap_system_tables →
      resultLabel (check_can_overwrite table (some n) imp tx) = none) ∧
    (tx.id_and_number_if_exists table = some (tid, num) → n ≠ num →
      resultLabel ((_insert_table_metadata table (some n) TableState.active tx).1) =
        none) := by
  refine ⟨?_, ?_, ?_, ?_, ?_, ?_⟩
  · intro hv
    simp [check_can_overwrite, hv, resultLabel]
  · intro hv hn hb hne hmem
    by_cases hsys : is_system other
    · simp [check_can_overwrite, hv, hn, hb, hne, hmem, hsys, resultLabel]
    · simp [check_can_overwrite, hv, hn, hb, hne, hmem, hsys, resultLabel]
  · intro ht hcap hnum
    simp [_insert_table_metadata, ht, hcap, hnum, resultLabel]
  · intro hcap ht
    have hcap2 : ¬(count_user_tables tx < MAX_USER_TABLES) := by omega
    simp [_insert_table_metadata, ht, hcap2, resultLabel]
  · intro hv hn hb
    simp [check_can_overwrite, hv, hn, hb, resultLabel]
  · intro hid hne
    have ht : table_exists table tx = true := by
      simp [table_exists, Tx.id_if_exists, hid]
    simp [_insert_table_metadata, ht, hid, hne, resultLabel]

def txW8 : Tx := ⟨[], [("_storage", 1)], [], [], [], [], [], 0⟩

theorem conflict_error_labels_witness :
    resultLabel (check_can_overwrite "t" (some 1) [] txW8) = some "TableConflict" :=
  (conflict_error_labels txW8 "t" "x" 1 0 0 []).1 rfl

/-- C6: `delete_table` on a nonexistent table is a no-op that returns ok
with the transaction unchanged; on an existing table, once the schema
enforcer permits the deletion, it removes every index metadata row attached
to the table and replaces the table's metadata row with a row identical in
name and number but with `state = Deleting`; the table row itself is never
removed from the catalog (it is still present, and the catalog's row count
is unchanged). -/
theorem delete_table_spec (tx : Tx) (name : String) :
    (table_exists name tx = false → delete_table name tx = (.ok (), tx)) ∧
    (∀ tid row, enforce_table_deletion name tx = .ok () →
      tx.id_if_exists name = some tid →
      assocLookup tx.tables tid = some row →
      delete_table name tx =
        (.ok (), { tx with
          indexes := tx.indexes.filter (fun i => i.tableId ≠ tid),
          tables := replaceRow tx.tables tid ⟨row.name, row.number, .deleting⟩ }) ∧
      assocLookup (replaceRow tx.tables tid ⟨row.name, row.number, .deleting⟩) tid =
        some ⟨row.name, row.number, TableState.deleting⟩ ∧
      (replaceRow tx.tables tid ⟨row.name, row.number, .deleting⟩).length =
        tx.tables.length) := by
  constructor
  · intro h
    simp [delete_table, h]
  · intro tid row hen hid hrow
    have ht : table_exists name tx = true := by simp [table_exists, hid]
    refine ⟨?_, ?_, ?_⟩
    · simp only [delete_table, ht, Bool.not_true, Bool.false_eq_true, if_false, hen, hid]
      simp [delete_table_by_id, get_table_metadata, hrow]
    · exact assocLookup_replaceRow_self tx.tables tid _ row hrow
    · simp [replaceRow]

def txW6 : Tx := ⟨[(1, ⟨"a", 7, TableState.active⟩)], [],
  [⟨5, 1, "by_id", true⟩, ⟨6, 2, "by_id", true⟩], [], [], [], [], 2⟩

theorem delete_table_spec_witness :
    delete_table "a" txW6 =
      (.ok (), { txW6 with
        indexes := txW6.indexes.filter (fun i => i.tableId ≠ 1),
        tables := replaceRow txW6.tables 1 ⟨"a", 7, TableState.deleting⟩ }) ∧
    assocLookup (replaceRow txW6.tables 1 ⟨"a", 7, TableState.deleting⟩) 1 =
      some ⟨"a", 7, TableState.deleting⟩ ∧
    (replaceRow txW6.tables 1 ⟨"a", 7, TableState.deleting⟩).length =
      txW6.tables.length :=
  (delete_table_spec txW6 "a").2 1 ⟨"a", 7, TableState.active⟩ rfl rfl rfl

/-- C3: `activate_table` dispatch: on an `Active` target row the call is a
no-op returning 0; on a `Deleting` target it fails; on a `Hidden` target
whose conflict check passes and whose name is currently held by a different
existing table, that table is cascade-deleted — every index metadata row on
it removed, its row transitioned to `Deleting` keeping its name and number —
and the call returns that table's prior document count as
documents_deleted. -/
theorem activate_table_dispatch (tx : Tx) (tablet_id : Nat) (name : String)
    (num : Nat) (imp : List String) (m : TableMetadata)
    (hm : assocLookup tx.tables tablet_id = some m) :
    (m.state = TableState.active →
      activate_table tablet_id name num imp tx = (.ok 0, tx)) ∧
    (m.state = TableState.deleting →
      activate_table tablet_id name num imp tx =
        (.error (.internal ("cannot activate " ++ name ++ " which is deleting")), tx)) ∧
    (∀ eid erow c tx1, m.state = TableState.hidden →
      check_can_overwrite name (some num) imp tx = .ok () →
      tx.id_if_exists name = some eid →
      assocLookup tx.tables eid = some erow →
      eid ≠ tablet_id →
      count name tx = (.ok c, tx1) →
      (activate_table tablet_id name num imp tx).1 = .ok c ∧
      ((activate_table tablet_id name num imp tx).2).indexes =
        tx.indexes.filter (fun i => i.tableId ≠ eid) ∧
      assocLookup ((activate_table tablet_id name num imp tx).2).tables eid =
        some ⟨erow.name, erow.number, TableState.deleting⟩) := by
  refine ⟨?_, ?_, ?_⟩
  · intro hs
    simp [activate_table, get_table_metadata, hm, hs]
  · intro hs
    simp [activate_table, get_table_metadata, hm, hs]
  · intro eid erow c tx1 hs hc hid hrow hne hcnt
    have ht : table_exists name tx = true := by simp [table_exists, hid]
    obtain ⟨r, hshape⟩ := count_snd_shape name tx
    rw [hcnt] at hshape
    dsimp only at hshape
    have hrow1 : assocLookup tx1.tables eid = some erow := by rw [hshape]; exact hrow
    have hdel : delete_table_by_id eid tx1 =
        (.ok (), { tx1 with
          indexes := tx1.indexes.filter (fun i => i.tableId ≠ eid),
          tables := replaceRow tx1.tables eid ⟨erow.name, erow.number, .deleting⟩ }) := by
      simp [delete_table_by_id, get_table_metadata, hrow1]
    rw [hshape] at hdel
    have hact : activate_table tablet_id name num imp tx =
        (.ok c, { tx with
          reads := r,
          indexes := tx.indexes.filter (fun i => i.tableId ≠ eid),
          tables := replaceRow (replaceRow tx.tables eid ⟨erow.name, erow.number, .deleting⟩)
            tablet_id ⟨name, num, TableState.active⟩ }) := by
      simp only [activate_table, get_table_metadata, hm, hs, hc, ht, if_true, hid, hcnt,
        hdel, hshape]
    refine ⟨?_, ?_, ?_⟩
    · rw [hact]
    · rw [hact]
    · rw [hact]
      dsimp only
      rw [assocLookup_replaceRow_ne _ _ _ _ hne]
      exact assocLookup_replaceRow_self tx.tables eid _ erow hrow

def txW3 : Tx := ⟨[(1, ⟨"new", 10001, TableState.hidden⟩),
    (2, ⟨"old", 10002, TableState.active⟩)], [],
  [⟨7, 2, "by_id", true⟩], [(2, 5)], [], [], [], 3⟩

theorem activate_table_dispatch_witness :
    (activate_table 1 "old" 10001 [] txW3).1 = .ok 5 ∧
    ((activate_table 1 "old" 10001 [] txW3).2).indexes =
      txW3.indexes.filter (fun i => i.tableId ≠ 2) ∧
    assocLookup ((activate_table 1 "old" 10001 [] txW3).2).tables 2 =
      some ⟨"old", 10002, TableState.deleting⟩ :=
  (activate_table_dispatch txW3 1 "old" 10001 [] ⟨"new", 10001, TableState.hidden⟩
    rfl).2.2 2 ⟨"old", 10002, TableState.active⟩ 5 { txW3 with reads := [2] }
    rfl rfl rfl rfl (by decide) rfl

theorem count_user_tables_append_le (tx : Tx) (e : Nat × TableMetadata)
    (idx : List IndexMetadata) (nid : Nat) :
    count_user_tables
      { tx with tables := tx.tables ++ [e], indexes := idx, nextId := nid } ≤
      count_user_tables tx + 1 := by
  simp only [count_user_tables, Tx.table_mapping, List.filter_append, List.length_append]
  have h1 := List.length_filter_le (fun p : Nat × TableMetadata => !(is_system p.2.name))
    (List.filter (fun p : Nat × TableMetadata => p.2.state == TableState.active) [e])
  have h2 := List.length_filter_le
    (fun p : Nat × TableMetadata => p.2.state == TableState.active) [e]
  simp only [List.length_singleton] at h2
  omega

/-- C9: `count_user_tables` counts exactly the table-mapping entries whose
name is not a system name; the private create path — through which every
row-inserting creation goes — and both public creation paths fail with the
too-many-tables conflict when the count has reached `MAX_USER_TABLES`; and a
creation that does succeed either inserted nothing or leaves the user-table
count within the cap. -/
theorem user_table_cap (tx : Tx) (table : String) (tn : Option Nat)
    (state : TableState) (n : Nat) (imp : List String) :
    (count_user_tables tx =
      ((tx.table_mapping.map (fun p => p.2.name)).filter
        (fun s => !(is_system s))).length) ∧
    (MAX_USER_TABLES ≤ count_user_tables tx →
      ¬(state = TableState.active ∧ table_exists table tx = true) →
      _insert_table_metadata table tn state tx =
        (.error (.badRequest "TooManyTables"
          ("Too many tables (maximum " ++ toString MAX_USER_TABLES ++ ")")), tx)) ∧
    (MAX_USER_TABLES ≤ count_user_tables tx → is_system table = false →
      table_exists table tx = false →
      insert_table_metadata table tx =
        (.error (.badRequest "TooManyTables"
          ("Too many tables (maximum " ++ toString MAX_USER_TABLES ++ ")")), tx)) ∧
    (MAX_USER_TABLES ≤ count_user_tables tx →
      (∀ b ∈ bootstrap_system_tables, b ≠ table) →
      check_can_overwrite table (some n) imp tx = .ok () →
      insert_table_for_import table (some n) imp tx =
        (.error (.badRequest "TooManyTables"
          ("Too many tables (maximum " ++ toString MAX_USER_TABLES ++ ")")), tx)) ∧
    (∀ r tx', _insert_table_metadata table tn state tx = (.ok r, tx') →
      tx' = tx ∨ count_user_tables tx' ≤ MAX_USER_TABLES) := by
  refine ⟨?_, ?_, ?_, ?_, ?_⟩
  · simp [count_user_tables, List.filter_map, List.length_map, Function.comp_def]
  · intro hcap hnand
    have hcond : (state == TableState.active && table_exists table tx) = false := by
      by_cases h1 : state = TableState.active
      · subst h1
        cases hte : table_exists table tx with
        | false => simp
        | true => exact absurd ⟨rfl, hte⟩ hnand
      · simp [h1]
    have hcap2 : ¬(count_user_tables tx < MAX_USER_TABLES) := by omega
    simp [_insert_table_metadata, hcond, hcap2]
  · intro hcap hsys hte
    have hcap2 : ¬(count_user_tables tx < MAX_USER_TABLES) := by omega
    simp [insert_table_metadata, hsys, _insert_table_metadata, hte, hcap2]
  · intro hcap hboot hc
    have hcap2 : ¬(count_user_tables tx < MAX_USER_TABLES) := by omega
    simp [insert_table_for_import, hc, _insert_table_metadata, hcap2]
    exact fun hmem => hboot table hmem rfl
  · intro r tx' h
    by_cases hcond : (state == TableState.active && table_exists table tx) = true
    · left
      simp only [_insert_table_metadata, hcond, if_true] at h
      cases hid : tx.id_and_number_if_exists table with
      | none => rw [hid] at h; simp at h
      | some idnum =>
        rw [hid] at h
        dsimp only at h
        by_cases hni : (tn.isNone || tn == some idnum.2) = true
        · rw [if_pos hni] at h
          simp only [Prod.mk.injEq] at h
          exact h.2.symm
        · rw [if_neg hni] at h
          simp at h
    · right
      have hcond2 : (state == TableState.active && table_exists table tx) = false := by
        cases hx : (state == TableState.active && table_exists table tx) with
        | false => rfl
        | true => exact absurd hx hcond
      simp only [_insert_table_metadata, hcond2, Bool.false_eq_true, if_false] at h
      by_cases hcap : count_user_tables tx < MAX_USER_TABLES
      · rw [if_pos hcap] at h
        cases tn with
        | some nn =>
          dsimp only at h
          by_cases hallow : (state == TableState.hidden || !(tx.number_exists nn)) = true
          · rw [if_pos hallow] at h
            dsimp only at h
            simp only [Prod.mk.injEq] at h
            rw [← h.2]
            have hle := count_user_tables_append_le tx (tx.nextId, ⟨table, nn, state⟩)
              (tx.indexes ++
                [⟨tx.nextId + 1, tx.nextId, "by_id", true⟩,
                 ⟨tx.nextId + 2, tx.nextId, "by_creation_time", true⟩])
              (tx.nextId + 3)
            omega
          · rw [if_neg hallow] at h
            simp at h
        | none =>
          dsimp only at h
          cases hnx : next_user_table_number tx with
          | error e => rw [hnx] at h; simp at h
          | ok nn =>
            rw [hnx] at h
            dsimp only at h
            simp only [Prod.mk.injEq] at h
            rw [← h.2]
            have hle := count_user_tables_append_le tx (tx.nextId, ⟨table, nn, state⟩)
              (tx.indexes ++
                [⟨tx.nextId + 1, tx.nextId, "by_id", true⟩,
                 ⟨tx.nextId + 2, tx.nextId, "by_creation_time", true⟩])
              (tx.nextId + 3)
            omega
      · rw [if_neg hcap] at h
        simp at h

def txW9 : Tx := ⟨[], [], [], [], [], [], [], 0⟩

def txW9r : Tx := ⟨[(0, ⟨"a", 10001, TableState.active⟩)], [],
  [⟨1, 0, "by_id", true⟩, ⟨2, 0, "by_creation_time", true⟩], [], [], [], [], 3⟩

theorem user_table_cap_witness :
    txW9r = txW9 ∨ count_user_tables txW9r ≤ MAX_USER_TABLES :=
  (user_table_cap txW9 "a" none TableState.active 0 []).2.2.2.2 (0, 10001) txW9r rfl

/-- The maximum of the allocation floor and every table number appearing in
the regular and virtual catalogs, stated independently of the allocator's
two-fold scan: one `foldr max` over the concatenated number lists. -/
def catalogMax (b : Bool) (tx : Tx) : Nat :=
  ((tx.tables.map fun p => p.2.number) ++ (tx.virtualTables.map fun p => p.2)).foldr max
    (if b then NUM_RESERVED_LEGACY_TABLE_NUMBERS else NUM_RESERVED_SYSTEM_TABLE_NUMBERS)

theorem foldl_max_proj_eq (l : List (Nat × TableMetadata)) (a : Nat) :
    l.foldl (fun acc p => max acc p.2.number) a = (l.map fun p => p.2.number).foldl max a := by
  induction l generalizing a with
  | nil => rfl
  | cons x xs ih => simp [List.foldl_cons, List.map_cons, ih]

theorem foldl_max_snd_eq (l : List (String × Nat)) (a : Nat) :
    l.foldl (fun acc p => max acc p.2) a = (l.map fun p => p.2).foldl max a := by
  induction l generalizing a with
  | nil => rfl
  | cons x xs ih => simp [List.foldl_cons, List.map_cons, ih]

theorem next_table_number_eq (b : Bool) (tx : Tx) :
    next_table_number b tx =
      if catalogMax b tx + 1 ≤ U32_MAX then .ok (catalogMax b tx + 1)
      else .error (.internal "table number overflow") := by
  simp only [next_table_number, catalogMax]
  rw [foldl_max_proj_eq, foldl_max_snd_eq, ← List.foldl_append, foldl_max_eq_foldr_max]

theorem catalogMax_insert (tx : Tx) (t : String) (nn id2 : Nat) (state : TableState)
    (idx : List IndexMetadata) (nid : Nat) :
    catalogMax false
      { tx with tables := tx.tables ++ [(id2, ⟨t, nn, state⟩)],
                indexes := idx, nextId := nid } = max (catalogMax false tx) nn := by
  simp only [catalogMax, List.map_append, List.map_cons, List.map_nil]
  rw [← foldl_max_eq_foldr_max, ← foldl_max_eq_foldr_max]
  rw [List.append_assoc, List.foldl_append, List.foldl_append, List.foldl_append]
  simp only [List.foldl_cons, List.foldl_nil]
  exact foldl_max_init _ _ _

/-- C5: `next_table_number` returns one plus the maximum of the starting
floor and every table number appearing in the regular and virtual catalogs,
failing when the increment would overflow `u32`; the floor is the
legacy-reserved floor (512) for system-table allocation and the
system-reserved floor (10000) for user-table allocation; the result depends
only on the two catalogs, so repeated calls without intervening inserts
return the same value; on empty catalogs the first
`next_user_table_number()` is the system-reserved floor plus 1; and after
successfully inserting one user table the next call returns exactly one
greater. -/
theorem next_table_number_spec (tx : Tx) (b : Bool) :
    (next_table_number b tx =
      if catalogMax b tx + 1 ≤ U32_MAX then .ok (catalogMax b tx + 1)
      else .error (.internal "table number overflow")) ∧
    (∀ tx2 : Tx, tx.tables = tx2.tables → tx.virtualTables = tx2.virtualTables →
      next_table_number b tx = next_table_number b tx2) ∧
    (next_user_table_number ⟨[], [], [], [], [], [], [], 0⟩ =
      .ok (NUM_RESERVED_SYSTEM_TABLE_NUMBERS + 1)) ∧
    (∀ t nn tx', is_system t = false → table_exists t tx = false →
      count_user_tables tx < MAX_USER_TABLES →
      next_user_table_number tx = .ok nn → nn + 1 ≤ U32_MAX →
      insert_table_metadata t tx = (.ok (), tx') →
      next_user_table_number tx' = .ok (nn + 1)) := by
  refine ⟨next_table_number_eq b tx, ?_, rfl, ?_⟩
  · intro tx2 h1 h2
    simp only [next_table_number, h1, h2]
  · intro t nn tx' hsys hte hcap hnext hlt hins
    have hcond : (TableState.active == TableState.active && table_exists t tx) = false := by
      simp [hte]
    have hins2 : _insert_table_metadata t none TableState.active tx =
        (.ok (tx.nextId, nn), { tx with
          tables := tx.tables ++ [(tx.nextId, ⟨t, nn, TableState.active⟩)],
          indexes := tx.indexes ++
            [⟨tx.nextId + 1, tx.nextId, "by_id", true⟩,
             ⟨tx.nextId + 2, tx.nextId, "by_creation_time", true⟩],
          nextId := tx.nextId + 3 }) := by
      simp [_insert_table_metadata, hte, hcap, hnext]
    have hins3 : insert_table_metadata t tx =
        (.ok (), { tx with
          tables := tx.tables ++ [(tx.nextId, ⟨t, nn, TableState.active⟩)],
          indexes := tx.indexes ++
            [⟨tx.nextId + 1, tx.nextId, "by_id", true⟩,
             ⟨tx.nextId + 2, tx.nextId, "by_creation_time", true⟩],
          nextId := tx.nextId + 3 }) := by
      simp [insert_table_metadata, hsys, hins2]
    rw [hins3] at hins
    simp only [Prod.mk.injEq, true_and] at hins
    rw [← hins]
    simp only [next_user_table_number] at hnext ⊢
    rw [next_table_number_eq] at hnext ⊢
    rw [catalogMax_insert]
    by_cases hov : catalogMax false tx + 1 ≤ U32_MAX
    · rw [if_pos hov] at hnext
      have hnn : catalogMax false tx + 1 = nn := by
        injection hnext
      rw [show max (catalogMax false tx) nn = nn by omega, if_pos hlt]
    · rw [if_neg hov] at hnext
      simp at hnext

theorem next_table_number_spec_witness :
    next_user_table_number txW9r = .ok (10001 + 1) :=
  (next_table_number_spec txW9 false).2.2.2 "a" 10001 txW9r rfl rfl
    (by decide) rfl (by decide) rfl

end TableModel
